import Mathlib

/-!
Shallow embedding of the HR assistant backend (rag-service).

The embedded code comes from:
  * `app/tools.py`   — the `ToolRegistry` handlers (leave balance, approvals,
    employee search, org chart, tax estimate, payslip download);
  * `app/celery_app.py` — the `ingest_document_task` document-ingestion task;
  * `app/llm_service.py` — the tool-dispatch loop of `LLMService.chat_completion`.

Conventions of the embedding:
  * UUID values are canonical lowercase hyphenated strings; `uuidParse` models
    the Python `uuid.UUID(...)` constructor succeeding on the canonical
    hyphenated form and raising (here: `none`) otherwise.
  * The relational store is a `DB` structure of row lists; a SQLAlchemy query
    `.filter(...).first()` is `List.find?`, `.filter(...).all()` is
    `List.filter`, and an in-place ORM mutation plus commit is `updateFirst`.
  * A Python handler body wrapped in `try/except Exception` is a total Lean
    function: the `except` path is the explicit error constructor; raising
    across the handler boundary is impossible by construction of the source,
    and is hence absent from the result types (except where the source really
    can raise, which the ingestion task's `TaskOutcome.raised` records).
  * `datetime` values compared only as points in time are `Date` triples with
    lexicographic order; leave-request dates, used only through
    `(to - from).days`, are absolute day numbers (`Int`).
-/

/-- True for the sixteen hexadecimal digit characters, either case. -/
def isHexChar (c : Char) : Bool :=
  (Char.ofNat 48 ≤ c && c ≤ Char.ofNat 57) ||
  (Char.ofNat 97 ≤ c && c ≤ Char.ofNat 102) ||
  (Char.ofNat 65 ≤ c && c ≤ Char.ofNat 70)

/-- Canonical hyphenated UUID format: 36 characters, hyphens at offsets
8, 13, 18 and 23, hexadecimal digits everywhere else. -/
def isValidUUID (s : String) : Bool :=
  s.length == 36 &&
  (s.data.enum.all fun p =>
    if p.1 == 8 || p.1 == 13 || p.1 == 18 || p.1 == 23 then p.2 == '-'
    else isHexChar p.2)

/-- Lowercases a string characterwise (list-based so that it reduces in the
kernel; `String.toLower` of the standard library computes the same string). -/
def strLower (s : String) : String :=
  ⟨s.data.map Char.toLower⟩

/-- Models Python's `uuid.UUID(s)` (standard library, external to the repo):
succeeds on the canonical hyphenated form, normalising case; on any other
input the constructor raises `ValueError`, modelled as `none`. -/
def uuidParse (s : String) : Option String :=
  if isValidUUID s then some (strLower s) else none

/-- Message of the `ValueError` raised by `uuid.UUID` on malformed input;
the handlers return `str(e)` of it. -/
def uuidErrorMsg : String := "badly formed hexadecimal UUID string"

/-- Calendar date (also standing for a midnight `datetime`); ordered
lexicographically, as `datetime` comparison orders points in time. -/
structure Date where
  year : Nat
  month : Nat
  day : Nat
deriving Repr, DecidableEq

/-- Lexicographic strict order on dates. -/
def Date.ltb (a b : Date) : Bool :=
  a.year < b.year ||
  (a.year == b.year && (a.month < b.month ||
    (a.month == b.month && a.day < b.day)))

/-- Lexicographic order on dates. -/
def Date.leb (a b : Date) : Bool :=
  a.ltb b || a == b

/-- Row of the `employees` table (the columns the embedded handlers read). -/
structure Employee where
  id : String
  tenant_id : String
  employee_id : String
  first_name : String
  last_name : String
  email : String
  department : String
  role : String
  is_active : Bool
  reporting_manager_id : Option String
deriving Repr, DecidableEq

/-- Row of the `leave_requests` table. `from_date`/`to_date` are nullable
absolute day numbers (the handlers use them only via `(to - from).days`);
`approved_at` is an abstract timestamp. -/
structure LeaveRequest where
  id : String
  tenant_id : String
  employee_id : String
  from_date : Option Int
  to_date : Option Int
  reason : String
  status : String
  approver_id : Option String
  approved_at : Option Nat
deriving Repr, DecidableEq

/-- Row of the `paystubs` table (columns read by `download_payslip`). -/
structure Paystub where
  id : String
  tenant_id : String
  employee_id : String
  pay_period_end : Option Date
deriving Repr, DecidableEq

/-- The relational store visible to the embedded tool handlers. -/
structure DB where
  employees : List Employee
  leaveRequests : List LeaveRequest
  paystubs : List Paystub
deriving Repr, DecidableEq

/-- Replaces the first element satisfying `p` by its image under `f`: the
effect of mutating the object returned by `.filter(p).first()` and
committing. -/
def updateFirst (p : α → Bool) (f : α → α) : List α → List α
  | [] => []
  | x :: xs => if p x then f x :: xs else x :: updateFirst p f xs

/-- Result of `ToolRegistry.get_leave_balance`: either the balance mapping or
an `{error}` mapping. -/
inductive LeaveBalanceResult where
  | ok (employee_id : String) (entitlement used remaining : Int)
  | error (msg : String)
deriving Repr, DecidableEq

/-- `ToolRegistry.get_leave_balance` (tools.py lines 21-54): parse the two
UUIDs, collect the employee's `approved` leave requests inside the tenant,
sum the inclusive day spans of those carrying both dates, and report
`remaining = max 0 (12 - used)`.  Any failure (here: UUID parse) takes the
`except` path and returns the `{error}` mapping. -/
def getLeaveBalance (db : DB) (tenant_id employee_id : String) :
    LeaveBalanceResult :=
  match uuidParse tenant_id with
  | none => .error uuidErrorMsg
  | some tU =>
    match uuidParse employee_id with
    | none => .error uuidErrorMsg
    | some eU =>
      let leave_requests := db.leaveRequests.filter fun lr =>
        lr.tenant_id == tU && lr.employee_id == eU && lr.status == "approved"
      let used_leaves : Int :=
        (leave_requests.filter fun lr =>
            lr.from_date.isSome && lr.to_date.isSome).foldl
          (fun acc lr =>
            acc + (lr.to_date.getD 0 - lr.from_date.getD 0 + 1)) 0
      let default_entitlement : Int := 12
      .ok employee_id default_entitlement used_leaves
        (max 0 (default_entitlement - used_leaves))

/-- Result of `ToolRegistry.approve_leave`: the success mapping or an
`{error}` mapping. -/
inductive ApproveResult where
  | ok (leave_id : String)
  | error (msg : String)
deriving Repr, DecidableEq

/-- Query predicate of the approver lookup in `approve_leave` (tools.py line
127): `Employee.id == approver_uuid` — the source applies no tenant filter
here. -/
def approverQuery (aU : String) (e : Employee) : Bool :=
  e.id == aU

/-- Query predicate of the leave-request lookup in `approve_leave` (tools.py
lines 132-137): id and tenant. -/
def approveLeaveQuery (lU tU : String) (lr : LeaveRequest) : Bool :=
  lr.id == lU && lr.tenant_id == tU

/-- The mutation `approve_leave` commits on the pending request (tools.py
lines 145-148): status `approved`, approver id, approval timestamp. -/
def approveStamp (aU : String) (now : Nat) (lr : LeaveRequest) :
    LeaveRequest :=
  { lr with status := "approved", approver_id := some aU,
            approved_at := some now }

/-- The store after `approve_leave` commits: the first request matching the
query carries the stamp, everything else is untouched. -/
def approveCommitDB (db : DB) (aU lU tU : String) (now : Nat) : DB :=
  { db with
      leaveRequests := updateFirst (approveLeaveQuery lU tU)
        (approveStamp aU now) db.leaveRequests }

/-- `ToolRegistry.approve_leave` (tools.py lines 119-158): parse the three
UUIDs; look up the approver **by id only** and require role in
`{manager, hr, ceo}`; look up the leave request by id and tenant; require
status `pending`; then set status `approved`, stamp the approver id and the
current time, and commit.  Returns the result together with the store after
the call (unchanged on every error path, since the only mutation precedes
only the final `commit`). -/
def approveLeave (db : DB) (now : Nat)
    (tenant_id approver_id leave_id : String) : ApproveResult × DB :=
  match uuidParse tenant_id with
  | none => (.error uuidErrorMsg, db)
  | some tU =>
    match uuidParse approver_id with
    | none => (.error uuidErrorMsg, db)
    | some aU =>
      match uuidParse leave_id with
      | none => (.error uuidErrorMsg, db)
      | some lU =>
        match db.employees.find? (approverQuery aU) with
        | none => (.error "Only managers, HR, or CEO can approve leaves", db)
        | some approver =>
          if !(approver.role == "manager" || approver.role == "hr" ||
               approver.role == "ceo") then
            (.error "Only managers, HR, or CEO can approve leaves", db)
          else
            match db.leaveRequests.find? (approveLeaveQuery lU tU) with
            | none => (.error "Leave request not found", db)
            | some leave_request =>
              if leave_request.status != "pending" then
                (.error ("Leave request is already " ++ leave_request.status),
                 db)
              else
                (.ok leave_id, approveCommitDB db aU lU tU now)

/-- One row of the list returned by `list_employees`. -/
structure EmployeeSummary where
  id : String
  name : String
  email : String
  department : String
  role : String
deriving Repr, DecidableEq

/-- Case-insensitive substring test: models SQL `ilike '%q%'`. -/
def containsCI (hay q : String) : Bool :=
  decide ((strLower q).data <:+: (strLower hay).data)

/-- `ToolRegistry.list_employees` (tools.py lines 297-335): active employees
of the tenant, optionally narrowed by a case-insensitive name/email substring
and an exact department match, truncated to 50 rows.  The `except` path of
the source returns the **empty list**, not an `{error}` mapping — the one
handler whose failure mode is not an error mapping. -/
def listEmployees (db : DB) (tenant_id : String)
    (query department : Option String) : List EmployeeSummary :=
  match uuidParse tenant_id with
  | none => []
  | some tU =>
    let base := db.employees.filter fun e =>
      e.tenant_id == tU && e.is_active
    let afterQuery :=
      match query with
      | none => base
      | some q => base.filter fun e =>
          containsCI e.first_name q || containsCI e.last_name q ||
          containsCI e.email q
    let afterDept :=
      match department with
      | none => afterQuery
      | some d => afterQuery.filter fun e => e.department == d
    (afterDept.take 50).map fun e =>
      { id := e.id
        name := e.first_name ++ " " ++ e.last_name
        email := e.email
        department := e.department
        role := e.role }

/-- Manager / direct-report entry of the org chart. -/
structure OrgPerson where
  id : String
  name : String
  role : String
deriving Repr, DecidableEq

/-- Result of `ToolRegistry.get_org_chart`. -/
inductive OrgChartResult where
  | ok (employee : String) (manager : Option OrgPerson)
      (direct_reports : List OrgPerson) (total_reports : Nat)
  | error (msg : String)
deriving Repr, DecidableEq

/-- Projection of an employee row to the org-chart entry shape. -/
def orgPersonOf (e : Employee) : OrgPerson :=
  { id := e.id, name := e.first_name ++ " " ++ e.last_name, role := e.role }

/-- `ToolRegistry.get_org_chart` (tools.py lines 507-553): the subject is
looked up by id **and tenant**; the manager lookup (line 523,
`Employee.id == emp.reporting_manager_id`) and the direct-reports query
(lines 532-534, `reporting_manager_id == emp.id && is_active`) carry **no
tenant filter** in the source. -/
def getOrgChart (db : DB) (tenant_id employee_id : String) : OrgChartResult :=
  match uuidParse tenant_id with
  | none => .error uuidErrorMsg
  | some tU =>
    match uuidParse employee_id with
    | none => .error uuidErrorMsg
    | some eU =>
      match db.employees.find? (fun e => e.id == eU && e.tenant_id == tU) with
      | none => .error "Employee not found"
      | some emp =>
        let manager_info : Option OrgPerson :=
          match emp.reporting_manager_id with
          | none => none
          | some mid =>
            match db.employees.find? (fun e => e.id == mid) with
            | none => none
            | some manager => some (orgPersonOf manager)
        let reports := db.employees.filter fun e =>
          e.reporting_manager_id == some emp.id && e.is_active
        let reports_info := reports.map orgPersonOf
        .ok (emp.first_name ++ " " ++ emp.last_name) manager_info
          reports_info reports_info.length

/-- Result mapping of `estimate_tax_deduction`.  The source's floats are
embedded as rationals: every quantity the claimed properties touch
(`60000 * 0.2`, the threshold comparisons) is computed exactly by the IEEE
doubles of the source, so the rational model agrees with it there.
`applied_rate_percent` embeds the `int(rate * 100)` of the f-string
`f"{int(rate*100)}%"`. -/
structure TaxResult where
  gross_amount : ℚ
  estimated_tax : ℚ
  net_amount : ℚ
  applied_rate_percent : ℤ
deriving Repr, DecidableEq

/-- `ToolRegistry.estimate_tax_deduction` (tools.py lines 417-454): flat rate
by fixed thresholds on `gross_amount` (> 100000 → 0.30, > 50000 → 0.20,
otherwise 0.10); `estimated_tax = gross_amount * rate`,
`net_amount = gross_amount - estimated_tax`.  The `tenant_id` and
`employee_id` arguments are accepted and never read. -/
def estimateTaxDeduction (tenant_id employee_id : String)
    (gross_amount : ℚ) : TaxResult :=
  let rate : ℚ :=
    if gross_amount > 100000 then 30 / 100
    else if gross_amount > 50000 then 20 / 100
    else 10 / 100
  let estimated_tax := gross_amount * rate
  { gross_amount := gross_amount
    estimated_tax := estimated_tax
    net_amount := gross_amount - estimated_tax
    applied_rate_percent := ⌊rate * 100⌋ }

/-- Result of `ToolRegistry.download_payslip`. -/
inductive PayslipResult where
  | ok (file_name download_url : String)
  | error (msg : String)
deriving Repr, DecidableEq

/-- Message of the `ValueError` raised by `datetime(year, month, 1)` when the
month lies outside 1..12. -/
def monthRangeErrorMsg : String := "month must be in 1..12"

/-- The half-open search window of `download_payslip` (tools.py lines
465-469): `start_date = datetime(year, month, 1)`; `end_date` is the first
day of the next month, with the year incremented when `month == 12`. -/
def payslipRange (month year : Nat) : Date × Date :=
  (⟨year, month, 1⟩,
   if month == 12 then ⟨year + 1, 1, 1⟩ else ⟨year, month + 1, 1⟩)

/-- Query predicate of the paystub lookup in `download_payslip` (tools.py
lines 471-478): tenant, employee, and `start <= pay_period_end < end`; a
SQL-`NULL` `pay_period_end` satisfies neither comparison. -/
def payslipQuery (tU eU : String) (r : Date × Date) (ps : Paystub) : Bool :=
  ps.tenant_id == tU && ps.employee_id == eU &&
  (match ps.pay_period_end with
   | none => false
   | some d => r.1.leb d && d.ltb r.2)

/-- `ToolRegistry.download_payslip` (tools.py lines 456-491): parse the
UUIDs; build `start_date = datetime(year, month, 1)` (a `ValueError` for a
month outside 1..12 is caught by the handler's `except` and returned as the
error mapping) and `end_date` as the first day of the following month,
wrapping the year when `month == 12`; take the first paystub of the tenant
and employee whose `pay_period_end` lies in `[start_date, end_date)`
(a SQL-`NULL` end date satisfies neither comparison); return a synthetic
URL built from the paystub's id — the handler consults no file storage. -/
def downloadPayslip (db : DB) (tenant_id employee_id : String)
    (month year : Nat) : PayslipResult :=
  match uuidParse tenant_id with
  | none => .error uuidErrorMsg
  | some tU =>
    match uuidParse employee_id with
    | none => .error uuidErrorMsg
    | some eU =>
      if month < 1 || month > 12 then .error monthRangeErrorMsg
      else
        match db.paystubs.find? (payslipQuery tU eU (payslipRange month year)) with
        | none =>
          .error ("No payslip found for " ++ toString month ++ "/" ++
            toString year)
        | some paystub =>
          .ok ("Payslip_" ++ toString year ++ "_" ++ toString month ++ ".pdf")
            ("/api/payroll/download/" ++ paystub.id)

/-- Row of the `documents` table (columns read by the ingestion task). -/
structure Document where
  id : String
  tenant_id : String
  ingestion_status : String
deriving Repr, DecidableEq

/-- Row of the `document_chunks` table. -/
structure DocumentChunk where
  id : String
  document_id : String
  chunk_index : Nat
  content : String
  content_redacted : Option String
  embedding_id : Option String
deriving Repr, DecidableEq

/-- State the ingestion task touches: the two relational tables, the
vector-store write log (each entry one `ingest_document_chunks` call:
tenant id and the chunk ids handed over), and whether the session opened by
`SessionLocal()` is still open. -/
structure IngestState where
  documents : List Document
  chunks : List DocumentChunk
  vectorWrites : List (String × List String)
  sessionOpen : Bool
deriving Repr, DecidableEq

/-- Result mapping returned by `ingest_document_task`. -/
inductive TaskResult where
  | errorMsg (message : String)
  | completedShort (document_id : String)
  | completedFull (document_id : String) (chunks_ingested : Nat)
deriving Repr, DecidableEq

/-- How one invocation of the task ends at its caller: a returned mapping,
or an exception propagating out of the task body. -/
inductive TaskOutcome where
  | ret (r : TaskResult)
  | raised (msg : String)
deriving Repr, DecidableEq

/-- Message of the `NameError` Python raises when the `except` handler's
`if doc:` reads the local `doc` before any assignment to it ran. -/
def nameErrorMsg : String :=
  "cannot access local variable 'doc' where it is not associated with a value"

/-- Python `chunk.content_redacted or chunk.content`: the redacted variant is
used unless it is NULL **or empty** (an empty string is falsy). -/
def chunkEmbedText (c : DocumentChunk) : String :=
  match c.content_redacted with
  | some r => if r == "" then c.content else r
  | none => c.content

/-- Insertion sort by `chunk_index`: the `order_by(DocumentChunk.chunk_index)`
of the chunk query. -/
def insertByIndex (c : DocumentChunk) : List DocumentChunk →
    List DocumentChunk
  | [] => [c]
  | x :: xs =>
    if c.chunk_index ≤ x.chunk_index then c :: x :: xs
    else x :: insertByIndex c xs

/-- Sorts chunks by `chunk_index` (stable insertion sort). -/
def sortByIndex : List DocumentChunk → List DocumentChunk
  | [] => []
  | x :: xs => insertByIndex x (sortByIndex xs)

/-- Marks the document with the given id with an ingestion status (the
`doc.ingestion_status = ...; db.commit()` pattern; the ORM identity map makes
this the row the initial query found). -/
def setDocStatus (docs : List Document) (docId status : String) :
    List Document :=
  docs.map fun d => if d.id == docId then { d with ingestion_status := status }
    else d

/-- `ingest_document_task` (celery_app.py lines 28-104).

Parameters standing for the task's effectful collaborators:
  * `embed` — `llm_service.get_embedding`; `none` models the call raising,
    which the per-chunk `try/except` turns into a `None` placeholder;
  * `queryExc` — when `some msg`, the initial `db.query(Document)...first()`
    itself raises `msg` (e.g. a backend rejecting a malformed id against a
    UUID column).  The task's `except Exception` then runs `if doc:` with the
    local `doc` unbound, so Python raises a `NameError` that propagates; the
    `finally` still closes the session;
  * `ingestExc` — when `some msg`, `rag_service.ingest_document_chunks`
    raises `msg`; the task's `except Exception` (with `doc` bound) marks the
    document `failed` and returns the error mapping.


The returned pair is the caller-visible outcome and the state after the
task; the `finally: db.close()` makes `sessionOpen = false` on every path. -/
def ingestDocumentTask (st : IngestState) (embed : String → Option (List Int))
    (queryExc ingestExc : Option String) (document_id : String) :
    TaskOutcome × IngestState :=
  match queryExc with
  | some _ =>
    (.raised nameErrorMsg, { st with sessionOpen := false })
  | none =>
    match st.documents.find? (fun d => d.id == document_id) with
    | none =>
      (.ret (.errorMsg "Document not found"), { st with sessionOpen := false })
    | some doc =>
      if doc.ingestion_status == "completed" then
        (.ret (.completedShort document_id), { st with sessionOpen := false })
      else
        let chunks := sortByIndex
          (st.chunks.filter fun c => c.document_id == doc.id)
        if chunks.isEmpty then
          (.ret (.errorMsg "No chunks found"),
           { st with documents := setDocStatus st.documents doc.id "failed"
                     sessionOpen := false })
        else
          let embeddings := chunks.map fun c => embed (chunkEmbedText c)
          let valid_chunks := ((chunks.zip embeddings).filter
            (fun ce => ce.2.isSome)).map (fun ce => ce.1)
          if valid_chunks.isEmpty then
            (.ret (.errorMsg "Embedding generation failed"),
             { st with documents := setDocStatus st.documents doc.id "failed"
                       sessionOpen := false })
          else
            match ingestExc with
            | some m =>
              (.ret (.errorMsg m),
               { st with documents := setDocStatus st.documents doc.id "failed"
                         sessionOpen := false })
            | none =>
              (.ret (.completedFull document_id valid_chunks.length),
               { documents := setDocStatus st.documents doc.id "completed"
                 chunks := st.chunks.map fun c =>
                   if (valid_chunks.map (fun v => v.id)).contains c.id then
                     { c with embedding_id := some c.id }
                   else c
                 vectorWrites := st.vectorWrites ++
                   [(doc.tenant_id, valid_chunks.map fun v => v.id)]
                 sessionOpen := false })

/-- One tool invocation requested by the model inside a chat-completion
response: call id, tool name, and the decoded JSON argument object (kept
opaque). -/
structure ToolCallRequest where
  callId : String
  name : String
  args : String
deriving Repr, DecidableEq

/-- One entry appended to `result["tool_calls"]` by the dispatch loop:
either `{id, name, arguments, result}` on success or `{id, name, error}`
when the tool function raised. -/
inductive ToolCallEntry (α : Type) where
  | success (callId name args : String) (result : α)
  | failure (callId name error : String)
deriving Repr, DecidableEq

/-- Tool registry of `LLMService`: tool name to registered function.  A
registered function either returns a value or raises, so it is embedded as
`String → Except String α` over the opaque argument payload. -/
def ToolTable (α : Type) := List (String × (String → Except String α))

/-- `tool_name in self.tools` followed by `self.tools[tool_name]`: first
binding of the name in the table. -/
def lookupTool (reg : ToolTable α) (name : String) :
    Option (String → Except String α) :=
  match reg.find? (fun nf => nf.1 == name) with
  | none => none
  | some nf => some nf.2

/-- Dispatch loop of `LLMService.chat_completion` (llm_service.py lines
84-107): for each requested call, in the order the model returned them — if
the name is registered, invoke it and append the success entry, or catch the
exception and append the `{id, name, error}` entry; if the name is not
registered, log and append nothing. -/
def dispatchToolCalls (reg : ToolTable α) :
    List ToolCallRequest → List (ToolCallEntry α)
  | [] => []
  | c :: rest =>
    match lookupTool reg c.name with
    | none => dispatchToolCalls reg rest
    | some f =>
      (match f c.args with
       | .ok v => .success c.callId c.name c.args v
       | .error e => .failure c.callId c.name e) :: dispatchToolCalls reg rest

/-- The per-call entry `dispatchToolCalls` produces for a registered call. -/
def entryOf (f : String → Except String α) (c : ToolCallRequest) :
    ToolCallEntry α :=
  match f c.args with
  | .ok v => .success c.callId c.name c.args v
  | .error e => .failure c.callId c.name e

/-- Query predicate of `get_leave_balance` (tools.py lines 28-34): approved
requests of the employee inside the tenant. -/
def approvedQuery (tU eU : String) (lr : LeaveRequest) : Bool :=
  lr.tenant_id == tU && lr.employee_id == eU && lr.status == "approved"

/-- Inclusive day-span `(to_date - from_date).days + 1` of a request. -/
def leaveSpan (lr : LeaveRequest) : Int :=
  lr.to_date.getD 0 - lr.from_date.getD 0 + 1

/-- Sum of the inclusive day-spans of all approved requests of the employee
inside the tenant. -/
def approvedSpanSum (db : DB) (tU eU : String) : Int :=
  ((db.leaveRequests.filter (approvedQuery tU eU)).map leaveSpan).sum

/-- Per-chunk survivors of the embedding stage: the chunks whose embedding
call succeeded. -/
def survivingChunks (embed : String → Option (List Int))
    (chunks : List DocumentChunk) : List DocumentChunk :=
  chunks.filter fun c => (embed (chunkEmbedText c)).isSome

/-- Tenant id of tenant A (fixture). -/
def tenantA : String := "aaaaaaaa-aaaa-4aaa-8aaa-aaaaaaaaaaaa"

/-- Tenant id of tenant B (fixture). -/
def tenantB : String := "bbbbbbbb-bbbb-4bbb-8bbb-bbbbbbbbbbbb"

/-- Employee id of Alice, the tenant-A employee (fixture). -/
def aliceId : String := "11111111-1111-4111-8111-111111111111"

/-- Employee id of Mallory, the tenant-B manager (fixture). -/
def malloryId : String := "22222222-2222-4222-8222-222222222222"

/-- Employee id of Bob, the tenant-B employee (fixture). -/
def bobId : String := "33333333-3333-4333-8333-333333333333"

/-- Employee id of Mona, the tenant-A manager (fixture). -/
def monaId : String := "55555555-5555-4555-8555-555555555555"

/-- Id of Alice's leave request (fixture). -/
def leaveAId : String := "44444444-4444-4444-8444-444444444444"

/-- Alice: active tenant-A employee with role `employee`, whose
`reporting_manager_id` points (across tenants) at Mallory. -/
def alice : Employee :=
  { id := aliceId, tenant_id := tenantA, employee_id := "E-001"
    first_name := "Alice", last_name := "Smith"
    email := "alice@a.example", department := "eng", role := "employee"
    is_active := true, reporting_manager_id := some malloryId }

/-- Mallory: active tenant-B employee with role `manager`. -/
def mallory : Employee :=
  { id := malloryId, tenant_id := tenantB, employee_id := "E-101"
    first_name := "Mallory", last_name := "Jones"
    email := "mallory@b.example", department := "ops", role := "manager"
    is_active := true, reporting_manager_id := none }

/-- Bob: active tenant-B employee whose `reporting_manager_id` points
(across tenants) at Alice. -/
def bob : Employee :=
  { id := bobId, tenant_id := tenantB, employee_id := "E-102"
    first_name := "Bob", last_name := "Brown"
    email := "bob@b.example", department := "ops", role := "employee"
    is_active := true, reporting_manager_id := some aliceId }

/-- Mona: active tenant-A manager. -/
def mona : Employee :=
  { id := monaId, tenant_id := tenantA, employee_id := "E-002"
    first_name := "Mona", last_name := "Lee"
    email := "mona@a.example", department := "eng", role := "manager"
    is_active := true, reporting_manager_id := none }

/-- Alice's pending leave request in tenant A. -/
def leaveA : LeaveRequest :=
  { id := leaveAId, tenant_id := tenantA, employee_id := aliceId
    from_date := some 100, to_date := some 102, reason := "trip"
    status := "pending", approver_id := none, approved_at := none }

/-- Two-tenant store: tenants A and B, with the cross-tenant
`reporting_manager_id` references above and Alice's pending request. -/
def crossDB : DB :=
  { employees := [alice, mallory, bob, mona]
    leaveRequests := [leaveA]
    paystubs := [] }

/-- The approved three-day variant of Alice's request (fixture). -/
def leaveApproved : LeaveRequest := { leaveA with status := "approved" }

/-- Store with exactly one approved request of Alice spanning three
inclusive days (fixture). -/
def balanceDB : DB :=
  { employees := [alice], leaveRequests := [leaveApproved], paystubs := [] }

/-- Id of Alice's December paystub (fixture). -/
def payAId : String := "66666666-6666-4666-8666-666666666666"

/-- Alice's paystub whose pay period ends 2024-12-15 (fixture). -/
def payA : Paystub :=
  { id := payAId, tenant_id := tenantA, employee_id := aliceId
    pay_period_end := some ⟨2024, 12, 15⟩ }

/-- Store with that single paystub (fixture). -/
def payDB : DB :=
  { employees := [alice], leaveRequests := [], paystubs := [payA] }

/-- Registered tool returning 7 on any arguments (fixture). -/
def fBal : String → Except String Nat := fun a => .ok 7

/-- Registered tool raising on any arguments (fixture). -/
def fBoom : String → Except String Nat := fun a => .error "boom failed"

/-- Two-tool registry (fixture). -/
def natReg : ToolTable Nat := [("get_leave_balance", fBal), ("boom", fBoom)]

/-- Model-requested call to the first tool (fixture). -/
def cBal : ToolCallRequest :=
  { callId := "id1", name := "get_leave_balance", args := "args1" }

/-- Model-requested call to the raising tool (fixture). -/
def cBoom : ToolCallRequest :=
  { callId := "id2", name := "boom", args := "args2" }

/-- Model-requested call to an unregistered name (fixture). -/
def cUnk : ToolCallRequest :=
  { callId := "id3", name := "mystery", args := "args3" }

/-- State after a fully successful ingestion run: the document marked
`completed`, each surviving chunk's `embedding_id` set to its own id, one
vector-store write appended, the session closed. -/
def ingestSuccessState (st : IngestState)
    (embed : String → Option (List Int)) (doc : Document) : IngestState :=
  let chunks := sortByIndex (st.chunks.filter fun c => c.document_id == doc.id)
  let survivors := survivingChunks embed chunks
  { documents := setDocStatus st.documents doc.id "completed"
    chunks := st.chunks.map fun c =>
      if (survivors.map (fun v => v.id)).contains c.id then
        { c with embedding_id := some c.id } else c
    vectorWrites := st.vectorWrites ++
      [(doc.tenant_id, survivors.map fun v => v.id)]
    sessionOpen := false }

/-- Id of the fixture document under ingestion. -/
def ingestDocAId : String := "77777777-7777-4777-8777-777777777777"

/-- Fixture document, not yet ingested. -/
def ingestDocA : Document :=
  { id := ingestDocAId, tenant_id := tenantA, ingestion_status := "pending" }

/-- First chunk of the fixture document. -/
def chunkA1 : DocumentChunk :=
  { id := "c1", document_id := ingestDocAId, chunk_index := 0
    content := "c1text", content_redacted := none, embedding_id := none }

/-- Second chunk (its embedding call will fail). -/
def chunkA2 : DocumentChunk :=
  { id := "c2", document_id := ingestDocAId, chunk_index := 1
    content := "c2text", content_redacted := none, embedding_id := none }

/-- Third chunk. -/
def chunkA3 : DocumentChunk :=
  { id := "c3", document_id := ingestDocAId, chunk_index := 2
    content := "c3text", content_redacted := none, embedding_id := none }

/-- Ingestion state: one pending document with three chunks, an open
session, nothing written yet. -/
def ingestStA : IngestState :=
  { documents := [ingestDocA], chunks := [chunkA1, chunkA2, chunkA3]
    vectorWrites := [], sessionOpen := true }

/-- Embedding service failing exactly on the second chunk's text. -/
def embedMost : String → Option (List Int) :=
  fun s => if s == "c2text" then none else some [1]

/-- Embedding service failing on every call. -/
def embedNever : String → Option (List Int) := fun s => none

/-- Fixture document already ingested. -/
def ingestDocADone : Document :=
  { ingestDocA with ingestion_status := "completed" }

/-- Ingestion state whose document is already `completed`. -/
def ingestStDone : IngestState :=
  { ingestStA with documents := [ingestDocADone] }

/-- C1: the tenant-isolation invariant fails on the code.  With the
two-tenant store `crossDB`: `approve_leave` invoked for tenant A with the
tenant-B approver Mallory succeeds and stamps her as approver of tenant A's
leave request (the approver lookup has no tenant filter), instead of
returning an error; and `get_org_chart` for tenant A's Alice returns
Mallory (tenant B) as manager and Bob (tenant B) as a direct report (those
two lookups have no tenant filter), instead of omitting cross-tenant rows. -/
theorem C1_cross_tenant_approval_and_org_chart :
    mallory.tenant_id ≠ tenantA ∧ bob.tenant_id ≠ tenantA ∧
    approveLeave crossDB 555 tenantA malloryId leaveAId =
      (ApproveResult.ok leaveAId,
       { crossDB with leaveRequests := [{ leaveA with
           status := "approved", approver_id := some malloryId,
           approved_at := some 555 }] }) ∧
    getOrgChart crossDB tenantA aliceId =
      OrgChartResult.ok "Alice Smith" (some (orgPersonOf mallory))
        [orgPersonOf bob] 1 := by
  decide

/-- C2 counterexample: `list_employees` does not return an `{error}` mapping
on an internal failure — with a malformed tenant UUID its `except` path
returns the empty list, the very shape the claim rules out; the same store
queried with a valid tenant id shows the call is otherwise non-trivial. -/
theorem C2_list_employees_empty_on_failure :
    uuidParse "not-a-uuid" = none ∧
    listEmployees crossDB "not-a-uuid" none none = [] ∧
    listEmployees crossDB tenantA none none ≠ [] := by
  decide

/-- C2 (amended): on an internal failure — here the malformed-UUID failure
every handler can hit — each embedded dict-returning handler takes its
`except` path and returns the `{error}` mapping without raising (the
handlers are total), and a mutating handler leaves the store untouched;
`list_employees` alone returns the empty list instead of an error mapping. -/
theorem C2_handlers_error_mapping_on_failure (db : DB) (now : Nat)
    (tid x : String) (m y : Nat) (q d : Option String)
    (h : uuidParse tid = none) :
    getLeaveBalance db tid x = .error uuidErrorMsg ∧
    approveLeave db now tid x x = (.error uuidErrorMsg, db) ∧
    getOrgChart db tid x = .error uuidErrorMsg ∧
    downloadPayslip db tid x m y = .error uuidErrorMsg ∧
    listEmployees db tid q d = [] := by
  refine ⟨?_, ?_, ?_, ?_, ?_⟩ <;>
    simp only [getLeaveBalance, approveLeave, getOrgChart, downloadPayslip,
      listEmployees, h]

/-- C2 witness: the amended statement at the malformed tenant id `"zzz"`
over the concrete two-tenant store. -/
theorem C2_handlers_error_mapping_witness :
    uuidParse "zzz" = none ∧
    (getLeaveBalance crossDB "zzz" aliceId = .error uuidErrorMsg ∧
     approveLeave crossDB 7 "zzz" aliceId aliceId =
       (.error uuidErrorMsg, crossDB) ∧
     getOrgChart crossDB "zzz" aliceId = .error uuidErrorMsg ∧
     downloadPayslip crossDB "zzz" aliceId 1 2024 = .error uuidErrorMsg ∧
     listEmployees crossDB "zzz" none none = []) :=
  ⟨by decide,
   C2_handlers_error_mapping_on_failure crossDB 7 "zzz" aliceId 1 2024
     none none (by decide)⟩

/-- When `find?` hits `x` and `f` preserves the query predicate on `x`,
`updateFirst` replaces exactly that hit. -/
theorem find?_updateFirst (p : α → Bool) (f : α → α) (l : List α) (x : α)
    (hx : l.find? p = some x) (hf : p (f x) = true) :
    (updateFirst p f l).find? p = some (f x) := by
  induction l with
  | nil => simp at hx
  | cons a t ih =>
    by_cases hpa : p a = true
    · rw [List.find?_cons_of_pos _ hpa] at hx
      injection hx with hax
      subst hax
      simp [updateFirst, hpa, List.find?_cons_of_pos _ hf]
    · rw [List.find?_cons_of_neg _ (by simpa using hpa)] at hx
      simp only [updateFirst]
      rw [if_neg hpa, List.find?_cons_of_neg _ (by simpa using hpa)]
      exact ih hx

/-- C3: `approve_leave` lifecycle.  The role check precedes the status
guard: an approver with role `employee` gets the authorization error and the
store is unchanged, whatever the request's status.  For an authorized
approver and a `pending` request the call succeeds, stamping status
`approved`, the approver id and the timestamp; the second call on the same
request then returns `{error: "Leave request is already approved"}` and
performs no mutation. -/
theorem C3_approve_leave_lifecycle (db : DB) (now : Nat)
    (tid aid lid tU aU lU : String) (ap : Employee)
    (htU : uuidParse tid = some tU) (haU : uuidParse aid = some aU)
    (hlU : uuidParse lid = some lU)
    (hap : db.employees.find? (approverQuery aU) = some ap) :
    (ap.role = "employee" →
      approveLeave db now tid aid lid =
        (.error "Only managers, HR, or CEO can approve leaves", db)) ∧
    ((ap.role = "manager" ∨ ap.role = "hr" ∨ ap.role = "ceo") →
      ∀ lr : LeaveRequest,
        db.leaveRequests.find? (approveLeaveQuery lU tU) = some lr →
        lr.status = "pending" →
        approveLeave db now tid aid lid =
          (.ok lid, approveCommitDB db aU lU tU now) ∧
        (approveCommitDB db aU lU tU now).leaveRequests.find?
            (approveLeaveQuery lU tU) = some (approveStamp aU now lr) ∧
        approveLeave (approveCommitDB db aU lU tU now) now tid aid lid =
          (.error "Leave request is already approved",
           approveCommitDB db aU lU tU now)) := by
  constructor
  · intro hrole
    simp only [approveLeave, htU, haU, hlU, hap, hrole]
    rfl
  · intro hrole lr hlr hpend
    have hroleb : (ap.role == "manager" || ap.role == "hr" ||
        ap.role == "ceo") = true := by
      rcases hrole with h | h | h <;> simp [h]
    have hplr : approveLeaveQuery lU tU lr = true := List.find?_some hlr
    have hpstamp : approveLeaveQuery lU tU (approveStamp aU now lr) = true := by
      simpa [approveLeaveQuery, approveStamp] using hplr
    have hfind2 := find?_updateFirst (approveLeaveQuery lU tU)
      (approveStamp aU now) db.leaveRequests lr hlr hpstamp
    have hfind2c : (approveCommitDB db aU lU tU now).leaveRequests.find?
        (approveLeaveQuery lU tU) = some (approveStamp aU now lr) := hfind2
    refine ⟨?_, hfind2c, ?_⟩
    · simp only [approveLeave, htU, haU, hlU, hap, hroleb, hlr, hpend]
      simp
    · simp only [approveLeave, htU, haU, hlU]
      have hemp : (approveCommitDB db aU lU tU now).employees =
          db.employees := rfl
      simp only [hemp, hap, hroleb, hfind2c]
      simp [approveStamp]

/-- C3 witness: the lifecycle at the concrete store — Alice (role
`employee`) is refused with no mutation; Mona (role `manager`, same tenant)
approves the pending request, and the immediate second call is refused with
`"Leave request is already approved"` and no further mutation. -/
theorem C3_approve_leave_witness :
    (approveLeave crossDB 9 tenantA aliceId leaveAId =
      (.error "Only managers, HR, or CEO can approve leaves", crossDB)) ∧
    (approveLeave crossDB 9 tenantA monaId leaveAId =
      (.ok leaveAId, approveCommitDB crossDB monaId leaveAId tenantA 9) ∧
     (approveCommitDB crossDB monaId leaveAId tenantA 9).leaveRequests.find?
        (approveLeaveQuery leaveAId tenantA) =
       some (approveStamp monaId 9 leaveA) ∧
     approveLeave (approveCommitDB crossDB monaId leaveAId tenantA 9) 9
        tenantA monaId leaveAId =
      (.error "Leave request is already approved",
       approveCommitDB crossDB monaId leaveAId tenantA 9)) := by
  refine ⟨(C3_approve_leave_lifecycle crossDB 9 tenantA aliceId leaveAId
    tenantA aliceId leaveAId alice (by decide) (by decide) (by decide)
    (by decide)).1 rfl, ?_⟩
  exact (C3_approve_leave_lifecycle crossDB 9 tenantA monaId leaveAId
    tenantA monaId leaveAId mona (by decide) (by decide) (by decide)
    (by decide)).2 (Or.inl rfl) leaveA (by decide) rfl

/-- Running-sum form of the `sum(...)` generator expression of
`get_leave_balance`. -/
theorem foldl_add_leaveSpan (l : List LeaveRequest) (a : Int) :
    l.foldl (fun acc lr =>
      acc + (lr.to_date.getD 0 - lr.from_date.getD 0 + 1)) a =
    a + (l.map leaveSpan).sum := by
  induction l generalizing a with
  | nil => simp
  | cons x t ih => simp [ih, leaveSpan]; ring

/-- C7: `get_leave_balance` computes `remaining = max 0 (12 - S)` with `S`
the sum of inclusive day-spans `(to - from) + 1` over all approved requests
of the employee in the tenant (each carrying both dates, as the claim's
day-span presupposes), alongside the fixed entitlement 12 and `used = S`. -/
theorem C7_get_leave_balance_formula (db : DB) (tid eid tU eU : String)
    (htU : uuidParse tid = some tU) (heU : uuidParse eid = some eU)
    (hdates : ∀ lr ∈ db.leaveRequests.filter (approvedQuery tU eU),
      lr.from_date.isSome ∧ lr.to_date.isSome) :
    getLeaveBalance db tid eid =
      .ok eid 12 (approvedSpanSum db tU eU)
        (max 0 (12 - approvedSpanSum db tU eU)) := by
  have hq : (fun lr : LeaveRequest =>
      lr.tenant_id == tU && lr.employee_id == eU && lr.status == "approved") =
      approvedQuery tU eU := rfl
  have hfilter : (db.leaveRequests.filter (approvedQuery tU eU)).filter
      (fun lr => lr.from_date.isSome && lr.to_date.isSome) =
      db.leaveRequests.filter (approvedQuery tU eU) := by
    rw [List.filter_eq_self]
    intro a ha
    have := hdates a ha
    simp [this.1, this.2]
  simp only [getLeaveBalance, htU, heU, hq, hfilter, foldl_add_leaveSpan]
  simp [approvedSpanSum]

/-- C7 witness: zero approved requests give `remaining = 12` (Alice in
`crossDB`, where her only request is still pending); one approved request
spanning 3 inclusive days gives `used = 3`, `remaining = 9`. -/
theorem C7_get_leave_balance_witness :
    getLeaveBalance crossDB tenantA aliceId =
      .ok aliceId 12 0 12 ∧
    getLeaveBalance balanceDB tenantA aliceId =
      .ok aliceId 12 3 9 := by
  constructor
  · exact (C7_get_leave_balance_formula crossDB tenantA aliceId tenantA
      aliceId (by decide) (by decide) (by decide)).trans (by decide)
  · exact (C7_get_leave_balance_formula balanceDB tenantA aliceId tenantA
      aliceId (by decide) (by decide) (by decide)).trans (by decide)

/-- C10: `estimate_tax_deduction` ignores its tenant and employee arguments
entirely; the applied rate follows the fixed thresholds (30% above 100000,
20% above 50000, 10% otherwise) with `estimated_tax = gross * rate` and
`net_amount = gross - estimated_tax`; at `gross_amount = 60000` it yields
rate 20%, tax 12000 and net 48000. -/
theorem C10_estimate_tax_pure_thresholds :
    (∀ t1 e1 t2 e2 g, estimateTaxDeduction t1 e1 g =
      estimateTaxDeduction t2 e2 g) ∧
    (∀ t e g, (estimateTaxDeduction t e g).estimated_tax =
        g * (if g > 100000 then 30 / 100 else if g > 50000 then 20 / 100
          else 10 / 100) ∧
      (estimateTaxDeduction t e g).net_amount =
        g - (estimateTaxDeduction t e g).estimated_tax) ∧
    (∀ t e, estimateTaxDeduction t e 60000 =
      { gross_amount := 60000, estimated_tax := 12000, net_amount := 48000,
        applied_rate_percent := 20 }) := by
  refine ⟨fun t1 e1 t2 e2 g => rfl, fun t e g => ⟨rfl, rfl⟩, fun t e => ?_⟩
  simp only [estimateTaxDeduction, TaxResult.mk.injEq]
  norm_num

/-- C9: `download_payslip` resolves the month to the half-open window
`[first of month, first of next month)`, incrementing the year when the
month is December; with a paystub of the tenant and employee whose
`pay_period_end` falls in the window it returns the synthetic URL built
from that paystub's id (no storage is consulted: the result depends only on
the relational rows); with none it returns the error mapping. -/
theorem C9_download_payslip_spec (db : DB) (tid eid tU eU : String)
    (month year : Nat) (hm1 : 1 ≤ month) (hm2 : month ≤ 12)
    (htU : uuidParse tid = some tU) (heU : uuidParse eid = some eU) :
    (∀ y : Nat, payslipRange 12 y = (⟨y, 12, 1⟩, ⟨y + 1, 1, 1⟩)) ∧
    (∀ ps : Paystub,
      db.paystubs.find? (payslipQuery tU eU (payslipRange month year)) =
        some ps →
      downloadPayslip db tid eid month year =
        .ok ("Payslip_" ++ toString year ++ "_" ++ toString month ++ ".pdf")
          ("/api/payroll/download/" ++ ps.id)) ∧
    (db.paystubs.find? (payslipQuery tU eU (payslipRange month year)) =
        none →
      downloadPayslip db tid eid month year =
        .error ("No payslip found for " ++ toString month ++ "/" ++
          toString year)) := by
  have hcond : ¬((month < 1 || month > 12) = true) := by
    simp only [Bool.or_eq_true, decide_eq_true_eq]
    omega
  refine ⟨fun y => by simp [payslipRange], ?_, ?_⟩
  · intro ps hps
    simp only [downloadPayslip, htU, heU]
    rw [if_neg hcond, hps]
  · intro hnone
    simp only [downloadPayslip, htU, heU]
    rw [if_neg hcond, hnone]

/-- C9 witness: for December 2024 the upper bound is 2025-01-01 and the
paystub ending 2024-12-15 resolves to its synthetic URL; for November 2024
the same store yields the not-found error. -/
theorem C9_download_payslip_witness :
    payslipRange 12 2024 = (⟨2024, 12, 1⟩, ⟨2025, 1, 1⟩) ∧
    downloadPayslip payDB tenantA aliceId 12 2024 =
      .ok "Payslip_2024_12.pdf" ("/api/payroll/download/" ++ payAId) ∧
    downloadPayslip payDB tenantA aliceId 11 2024 =
      .error "No payslip found for 11/2024" := by
  have h := C9_download_payslip_spec payDB tenantA aliceId tenantA aliceId
    12 2024 (by decide) (by decide) (by decide) (by decide)
  have h11 := C9_download_payslip_spec payDB tenantA aliceId tenantA aliceId
    11 2024 (by decide) (by decide) (by decide) (by decide)
  refine ⟨h.1 2024, (h.2.1 payA (by decide)).trans (by decide),
    (h11.2.2 (by decide)).trans (by decide)⟩

/-- The dispatch loop distributes over concatenation of the call list. -/
theorem dispatchToolCalls_append (reg : ToolTable α)
    (l1 l2 : List ToolCallRequest) :
    dispatchToolCalls reg (l1 ++ l2) =
      dispatchToolCalls reg l1 ++ dispatchToolCalls reg l2 := by
  induction l1 with
  | nil => simp [dispatchToolCalls]
  | cons c t ih =>
    simp only [List.cons_append, dispatchToolCalls]
    cases lookupTool reg c.name with
    | none => exact ih
    | some f => simp [ih]

/-- C8: the dispatch loop of `chat_completion` processes the model's tool
calls one at a time in the model's order — the result list is exactly the
in-order image of the registered calls (unregistered names contribute
nothing, so they are silently skipped with no entry and no error entry);
and a call whose tool function raises contributes exactly its
`{id, name, error}` entry while the entries of the calls before and after
it are untouched. -/
theorem C8_dispatch_tool_calls (α : Type) (reg : ToolTable α)
    (calls pre post : List ToolCallRequest) (bad : ToolCallRequest)
    (f : String → Except String α) (m : String) :
    dispatchToolCalls reg calls =
      calls.filterMap (fun c => (lookupTool reg c.name).map
        (fun g => entryOf g c)) ∧
    (lookupTool reg bad.name = none →
      dispatchToolCalls reg (pre ++ bad :: post) =
        dispatchToolCalls reg (pre ++ post)) ∧
    (lookupTool reg bad.name = some f → f bad.args = .error m →
      dispatchToolCalls reg (pre ++ bad :: post) =
        dispatchToolCalls reg pre ++
          ToolCallEntry.failure bad.callId bad.name m ::
          dispatchToolCalls reg post) := by
  refine ⟨?_, ?_, ?_⟩
  · induction calls with
    | nil => simp [dispatchToolCalls]
    | cons c t ih =>
      simp only [dispatchToolCalls, List.filterMap_cons]
      cases h : lookupTool reg c.name with
      | none => simpa [h] using ih
      | some g =>
        simp only [h, Option.map_some]
        cases hg : g c.args <;> simp [entryOf, hg, ih]
  · intro h
    rw [dispatchToolCalls_append, dispatchToolCalls_append]
    simp [dispatchToolCalls, h]
  · intro hf hm
    rw [dispatchToolCalls_append]
    simp [dispatchToolCalls, hf, hm]

/-- C8 witness: over the concrete registry, the three-call batch produces
the ordered success and failure entries with the unknown name skipped; the
failing middle call isolates exactly to its error entry; and an unknown
call contributes nothing at all. -/
theorem C8_dispatch_witness :
    dispatchToolCalls natReg [cBal, cBoom, cUnk] =
      [ToolCallEntry.success "id1" "get_leave_balance" "args1" 7,
       ToolCallEntry.failure "id2" "boom" "boom failed"] ∧
    dispatchToolCalls natReg [cBal, cBoom, cUnk] =
      dispatchToolCalls natReg [cBal] ++
        ToolCallEntry.failure "id2" "boom" "boom failed" ::
        dispatchToolCalls natReg [cUnk] ∧
    dispatchToolCalls natReg [cBal, cUnk] =
      dispatchToolCalls natReg [cBal] := by
  have h := C8_dispatch_tool_calls Nat natReg [cBal, cBoom, cUnk] [cBal]
    [cUnk] cBoom fBoom "boom failed"
  have h2 := C8_dispatch_tool_calls Nat natReg [cBal, cUnk] [cBal]
    [] cUnk fBoom "boom failed"
  exact ⟨h.1.trans (by decide), h.2.2 rfl rfl, (h2.2.1 rfl).trans (by rfl)⟩

/-- The zip-filter-project pipeline of the task (celery_app.py lines 66-68)
keeps exactly the chunks whose embedding call succeeded. -/
theorem survivors_eq (embed : String → Option (List Int))
    (chunks : List DocumentChunk) :
    ((chunks.zip (chunks.map fun c => embed (chunkEmbedText c))).filter
      (fun ce => ce.2.isSome)).map (fun ce => ce.1) =
    survivingChunks embed chunks := by
  induction chunks with
  | nil => rfl
  | cons c t ih =>
    simp only [List.map_cons, List.zip_cons_cons, List.filter_cons]
    cases h : (embed (chunkEmbedText c)).isSome <;>
      simp_all [survivingChunks, List.filter_cons]

/-- Marking a status only rewrites the status field, so the lookup by id
finds the same row with the new status. -/
theorem find?_setDocStatus (docs : List Document) (docId s : String) :
    (setDocStatus docs docId s).find? (fun d => d.id == docId) =
    (docs.find? (fun d => d.id == docId)).map
      (fun d => { d with ingestion_status := s }) := by
  induction docs with
  | nil => simp [setDocStatus]
  | cons d t ih =>
    simp only [setDocStatus, List.map_cons] at ih ⊢
    by_cases h : (d.id == docId) = true
    · rw [if_pos h]
      have hu : ((({ d with ingestion_status := s }) : Document).id ==
          docId) = true := h
      simp only [List.find?_cons, hu, h]
      rfl
    · rw [if_neg h]
      have hb : (d.id == docId) = false := by simpa using h
      simp only [List.find?_cons, hb]
      exact ih

/-- Success run of the ingestion task: document found, not yet completed,
chunks present, at least one embedding survived, no collaborator raised. -/
theorem ingestTask_success (st : IngestState)
    (embed : String → Option (List Int)) (doc : Document) (docId : String)
    (hdoc : st.documents.find? (fun d => d.id == docId) = some doc)
    (hst : doc.ingestion_status ≠ "completed")
    (hchunks : sortByIndex (st.chunks.filter
      (fun c => c.document_id == doc.id)) ≠ [])
    (hsurv : survivingChunks embed (sortByIndex (st.chunks.filter
      (fun c => c.document_id == doc.id))) ≠ []) :
    ingestDocumentTask st embed none none docId =
      (.ret (.completedFull docId (survivingChunks embed (sortByIndex
        (st.chunks.filter (fun c => c.document_id == doc.id)))).length),
       ingestSuccessState st embed doc) := by
  have hstb : (doc.ingestion_status == "completed") = false := by
    simpa using hst
  have hch : (sortByIndex (st.chunks.filter
      (fun c => c.document_id == doc.id))).isEmpty = false := by
    simpa [List.isEmpty_iff] using hchunks
  have hsv : (survivingChunks embed (sortByIndex (st.chunks.filter
      (fun c => c.document_id == doc.id)))).isEmpty = false := by
    simpa [List.isEmpty_iff] using hsurv
  simp only [ingestDocumentTask, hdoc, hstb, survivors_eq, hch, hsv,
    Bool.false_eq_true, if_false, ingestSuccessState]

/-- Short-circuit run of the ingestion task on an already-completed
document (celery_app.py lines 39-41): independent of the embedding service
and of whether the vector store would fail, the task returns the completed
mapping and the only state change is the released session. -/
theorem ingestTask_completedShort (st : IngestState)
    (embed : String → Option (List Int)) (ie : Option String)
    (docId : String) (doc : Document)
    (hdoc : st.documents.find? (fun d => d.id == docId) = some doc)
    (hc : doc.ingestion_status = "completed") :
    ingestDocumentTask st embed none ie docId =
      (.ret (.completedShort docId), { st with sessionOpen := false }) := by
  have hb : (doc.ingestion_status == "completed") = true := by simp [hc]
  simp only [ingestDocumentTask, hdoc, hb, if_true]

/-- C4: partial-success policy of the ingestion run.  With the document
found and not yet completed and its chunk list nonempty: when at least one
chunk's embedding call succeeds, the task completes, reports
`chunks_ingested` equal to the number of surviving chunks, appends exactly
one vector-store write carrying the survivors, and each surviving chunk's
row gets `embedding_id` equal to its own id; when every embedding call
fails (all placeholders filtered out), the document is marked `failed`. -/
theorem C4_ingest_degraded_batch (st : IngestState)
    (embed : String → Option (List Int)) (doc : Document) (docId : String)
    (hdoc : st.documents.find? (fun d => d.id == docId) = some doc)
    (hst : doc.ingestion_status ≠ "completed")
    (hchunks : sortByIndex (st.chunks.filter
      (fun c => c.document_id == doc.id)) ≠ []) :
    (survivingChunks embed (sortByIndex (st.chunks.filter
        (fun c => c.document_id == doc.id))) ≠ [] →
      ingestDocumentTask st embed none none docId =
        (.ret (.completedFull docId (survivingChunks embed (sortByIndex
          (st.chunks.filter (fun c => c.document_id == doc.id)))).length),
         ingestSuccessState st embed doc)) ∧
    (∀ c ∈ st.chunks,
      ((survivingChunks embed (sortByIndex (st.chunks.filter
        (fun c => c.document_id == doc.id)))).map
          (fun v => v.id)).contains c.id = true →
      ({ c with embedding_id := some c.id } : DocumentChunk) ∈
        (ingestSuccessState st embed doc).chunks) ∧
    (survivingChunks embed (sortByIndex (st.chunks.filter
        (fun c => c.document_id == doc.id))) = [] →
      ingestDocumentTask st embed none none docId =
        (.ret (.errorMsg "Embedding generation failed"),
         { st with documents := setDocStatus st.documents doc.id "failed"
                   sessionOpen := false })) := by
  refine ⟨fun hsurv => ingestTask_success st embed doc docId hdoc hst
    hchunks hsurv, ?_, ?_⟩
  · intro c hcm hcontains
    have hmem := List.mem_map_of_mem (fun c : DocumentChunk =>
      if ((survivingChunks embed (sortByIndex (st.chunks.filter
          (fun c => c.document_id == doc.id)))).map
            (fun v => v.id)).contains c.id then
        ({ c with embedding_id := some c.id } : DocumentChunk) else c) hcm
    dsimp only at hmem
    rw [if_pos hcontains] at hmem
    exact hmem
  · intro hempty
    have hstb : (doc.ingestion_status == "completed") = false := by
      simpa using hst
    have hch : (sortByIndex (st.chunks.filter
        (fun c => c.document_id == doc.id))).isEmpty = false := by
      simpa [List.isEmpty_iff] using hchunks
    have hsv : (survivingChunks embed (sortByIndex (st.chunks.filter
        (fun c => c.document_id == doc.id)))).isEmpty = true := by
      simp [hempty]
    simp only [ingestDocumentTask, hdoc, hstb, survivors_eq, hch, hsv,
      Bool.false_eq_true, if_false, if_true]

/-- C5: idempotence of the ingestion task.  On a document already
`completed` the task returns the completed mapping no matter what the
embedding service or the vector store would do, and the only state change
is the released session (no re-embedding, no vector-store write, no table
mutation); consequently, after a successful first run the second run
returns the completed mapping and leaves the first run's state exactly as
it was — no duplicate writes. -/
theorem C5_ingest_idempotent (st : IngestState)
    (embed : String → Option (List Int)) (ie : Option String)
    (docId : String) (doc : Document)
    (hdoc : st.documents.find? (fun d => d.id == docId) = some doc) :
    (doc.ingestion_status = "completed" →
      ingestDocumentTask st embed none ie docId =
        (.ret (.completedShort docId), { st with sessionOpen := false })) ∧
    (doc.ingestion_status ≠ "completed" →
      sortByIndex (st.chunks.filter
        (fun c => c.document_id == doc.id)) ≠ [] →
      survivingChunks embed (sortByIndex (st.chunks.filter
        (fun c => c.document_id == doc.id))) ≠ [] →
      ingestDocumentTask st embed none none docId =
        (.ret (.completedFull docId (survivingChunks embed (sortByIndex
          (st.chunks.filter (fun c => c.document_id == doc.id)))).length),
         ingestSuccessState st embed doc) ∧
      ingestDocumentTask (ingestSuccessState st embed doc) embed none none
          docId =
        (.ret (.completedShort docId), ingestSuccessState st embed doc)) := by
  constructor
  · intro hc
    exact ingestTask_completedShort st embed ie docId doc hdoc hc
  · intro hst hch hsv
    refine ⟨ingestTask_success st embed doc docId hdoc hst hch hsv, ?_⟩
    have hid : doc.id = docId := by simpa using List.find?_some hdoc
    have hdocs : (ingestSuccessState st embed doc).documents =
        setDocStatus st.documents docId "completed" := by
      simp [ingestSuccessState, hid]
    have hdoc2 : (ingestSuccessState st embed doc).documents.find?
        (fun d => d.id == docId) =
        some ({ doc with ingestion_status := "completed" }) := by
      rw [hdocs, find?_setDocStatus, hdoc]
      rfl
    exact ingestTask_completedShort (ingestSuccessState st embed doc)
      embed none docId ({ doc with ingestion_status := "completed" })
      hdoc2 rfl

/-- C4 witness: 3 chunks with exactly one failing embedding give
`completed` with `chunks_ingested = 2`; the surviving chunk `c1` ends with
`embedding_id` equal to its own id; with every embedding failing the
document is marked `failed`. -/
theorem C4_ingest_degraded_batch_witness :
    ingestDocumentTask ingestStA embedMost none none ingestDocAId =
      (.ret (.completedFull ingestDocAId 2),
       ingestSuccessState ingestStA embedMost ingestDocA) ∧
    ({ chunkA1 with embedding_id := some "c1" } : DocumentChunk) ∈
      (ingestSuccessState ingestStA embedMost ingestDocA).chunks ∧
    ingestDocumentTask ingestStA embedNever none none ingestDocAId =
      (.ret (.errorMsg "Embedding generation failed"),
       { ingestStA with
          documents := setDocStatus ingestStA.documents ingestDocAId "failed"
          sessionOpen := false }) := by
  have h := C4_ingest_degraded_batch ingestStA embedMost ingestDocA
    ingestDocAId (by decide) (by decide) (by decide)
  have h0 := C4_ingest_degraded_batch ingestStA embedNever ingestDocA
    ingestDocAId (by decide) (by decide) (by decide)
  exact ⟨(h.1 (by decide)).trans (by decide),
    h.2.1 chunkA1 (by decide) (by decide),
    (h0.2.2 (by decide)).trans (by decide)⟩

/-- C5 witness: on the already-completed document the task short-circuits —
even with a vector store that would fail — changing nothing but the
session; and after a successful first run on the pending document, the
second run returns `completed` again with the state (and so the write log)
unchanged. -/
theorem C5_ingest_idempotent_witness :
    ingestDocumentTask ingestStDone embedMost none (some "vector store down")
        ingestDocAId =
      (.ret (.completedShort ingestDocAId),
       { ingestStDone with sessionOpen := false }) ∧
    ingestDocumentTask ingestStA embedMost none none ingestDocAId =
      (.ret (.completedFull ingestDocAId 2),
       ingestSuccessState ingestStA embedMost ingestDocA) ∧
    ingestDocumentTask (ingestSuccessState ingestStA embedMost ingestDocA)
        embedMost none none ingestDocAId =
      (.ret (.completedShort ingestDocAId),
       ingestSuccessState ingestStA embedMost ingestDocA) := by
  have h1 := C5_ingest_idempotent ingestStDone embedMost
    (some "vector store down") ingestDocAId ingestDocADone (by decide)
  have h2 := C5_ingest_idempotent ingestStA embedMost none ingestDocAId
    ingestDocA (by decide)
  have h3 := h2.2 (by decide) (by decide) (by decide)
  exact ⟨h1.1 rfl, h3.1.trans (by decide), h3.2⟩

/-- C6: error containment of the ingestion task is asymmetric.  When a
collaborator fails after the document reference is resolved (here: the
vector-store call), the task marks the document `failed`, returns the error
mapping and closes the session — as the claim states.  But when the initial
document query itself raises, the `except` handler's `if doc:` reads the
unbound local `doc`, so Python raises a `NameError` that propagates to the
caller instead of an error mapping being returned; the `finally` still
closes the session. -/
theorem C6_ingest_exception_paths :
    ingestDocumentTask ingestStA embedMost (some "database error") none
        ingestDocAId =
      (.raised nameErrorMsg, { ingestStA with sessionOpen := false }) ∧
    ingestDocumentTask ingestStA embedMost none (some "vector store down")
        ingestDocAId =
      (.ret (.errorMsg "vector store down"),
       { ingestStA with
          documents := setDocStatus ingestStA.documents ingestDocAId "failed"
          sessionOpen := false }) := by
  exact ⟨rfl, by decide⟩
